import Mathlib

/-!
Verification of the shadowsocks relay subsystem of redsocks2
(src/shadowsocks.c) against its natural-language specification.

The C file is embedded shallowly:
* an evbuffer input queue is a list of contiguous segments of bytes
  (`SegBuf`); the output queues, whose segmentation the code never
  observes, are flat byte lists;
* the cipher primitives `ss_encrypt` / `ss_decrypt` /
  `ss_calc_buffer_size` (from encrypt.c, outside the verified core) are
  abstract parameters collected in `Cipher`; a transform either
  produces a ciphertext (`some`) or fails (`none`);
* a `redsocks_client` together with its two bufferevents is the record
  `Conn`; outcomes of framework calls that the C code only branches on
  (socket-connect success, `redsocks_start_relay`,
  `process_shutdown_on_write_`) are boolean parameters of the handlers.
-/

namespace Shadowsocks

/-- A byte of stream data. -/
abbrev Byte := Nat

/-- An evbuffer modelled as its queue of contiguous segments. -/
abbrev SegBuf := List (List Byte)

/-- evbuffer_get_contiguous_space: size of the first contiguous run of
unread data (the first segment). -/
def evbuffer_get_contiguous_space (b : SegBuf) : Nat :=
  match b with
  | [] => 0
  | s :: _ => s.length

/-- evbuffer_pullup on at most the first contiguous run: returns the
first `n` bytes of the first segment (for `n` up to the contiguous
space this does not restructure the buffer). -/
def evbuffer_pullup (b : SegBuf) (n : Nat) : List Byte :=
  (match b with
   | [] => []
   | s :: _ => s).take n

/-- evbuffer_drain: remove the first `n` bytes from the queue. -/
def evbuffer_drain : SegBuf → Nat → SegBuf
  | segs, 0 => segs
  | [], _ + 1 => []
  | s :: rest, n + 1 =>
      if n + 1 < s.length then s.drop (n + 1) :: rest
      else evbuffer_drain rest (n + 1 - s.length)

/-- evbuffer_get_length: total number of unread bytes in the queue. -/
def evbuffer_get_length (b : SegBuf) : Nat :=
  (b.map List.length).sum

/-- The cipher layer (encrypt.c) as seen from shadowsocks.c: the
worst-case output-size bound `ss_calc_buffer_size` for each of the two
contexts, and the two stateful transforms `ss_encrypt` / `ss_decrypt`,
which either produce output bytes or report failure (`none`). -/
structure Cipher where
  calc_size_e : Nat → Nat
  calc_size_d : Nat → Nat
  enc : List Byte → Option (List Byte)
  dec : List Byte → Option (List Byte)

/-- encrypt_mem: transform `data` into the destination output queue
`buf_out`.  Mirrors the C control flow: empty input is a no-op; a zero
required size skips the reservation; on transform failure the reserved
space is committed with length zero, so nothing is appended. -/
def encrypt_mem (ciph : Cipher) (data : List Byte) (buf_out : List Byte)
    (decrypt : Bool) : List Byte :=
  if data.length = 0 then buf_out
  else
    let required :=
      if decrypt then ciph.calc_size_d data.length else ciph.calc_size_e data.length
    if required = 0 then buf_out
    else
      match (if decrypt then ciph.dec data else ciph.enc data) with
      | none => buf_out
      | some out => buf_out ++ out

/-- One side of the connection: a bufferevent with its input queue,
output queue and read-enable state. -/
structure Stream where
  input : SegBuf
  output : List Byte
  read_enabled : Bool
  deriving DecidableEq, Repr

/-- encrypt_buffer: encrypt the first contiguous run of the source
input queue into the destination output queue and drain it from the
source. -/
def encrypt_buffer (ciph : Cipher) (src dst : Stream) : Stream × Stream :=
  let input_size := evbuffer_get_contiguous_space src.input
  if input_size = 0 then (src, dst)
  else
    let input := evbuffer_pullup src.input input_size
    let out := encrypt_mem ciph input dst.output false
    ({ src with input := evbuffer_drain src.input input_size },
     { dst with output := out })

/-- decrypt_buffer: decrypt the first contiguous run of the source
input queue into the destination output queue and drain it from the
source. -/
def decrypt_buffer (ciph : Cipher) (src dst : Stream) : Stream × Stream :=
  let input_size := evbuffer_get_contiguous_space src.input
  if input_size = 0 then (src, dst)
  else
    let input := evbuffer_pullup src.input input_size
    let out := encrypt_mem ciph input dst.output true
    ({ src with input := evbuffer_drain src.input input_size },
     { dst with output := out })

/-- ss_state: the per-connection state machine of shadowsocks.c. -/
inductive ss_state
  | ss_new
  | ss_connected
  deriving DecidableEq, Repr

/-- Which callback a bufferevent slot currently points at
(bufferevent_setcb targets). -/
inductive CbKind
  | initial_cb
  | client_read
  | client_write
  | relay_read
  | relay_write
  deriving DecidableEq, Repr

/-- The ss_client trailer: the two cipher contexts with their
initialized flags; `e_free_count` / `d_free_count` count calls to
enc_ctx_free on each context so that double-release is observable. -/
structure SSClientCtx where
  e_ctx_init : Bool
  d_ctx_init : Bool
  e_free_count : Nat
  d_free_count : Nat
  deriving DecidableEq, Repr

/-- The redsocks_client as used by shadowsocks.c: state, the two
streams, the per-side read half-close flags, the relay-connected flag,
whether connect-phase timeouts are installed on the relay bufferevent,
the four read/write callback slots, the ss_client trailer, and whether
the framework drop path has been invoked. -/
structure Conn where
  state : ss_state
  client : Stream
  relay : Stream
  client_evshut_read : Bool
  relay_evshut_read : Bool
  relay_connected : Bool
  relay_timeout_set : Bool
  client_read_cb : CbKind
  client_write_cb : CbKind
  relay_read_cb : CbKind
  relay_write_cb : CbKind
  sclient : SSClientCtx
  dropped : Bool
  deriving DecidableEq, Repr

/-- redsocks_drop_client: the framework's shared drop path (external
collaborator); observable here as the `dropped` flag. -/
def redsocks_drop_client (c : Conn) : Conn := { c with dropped := true }

/-- The environment a handler runs in: the framework's write
high-water mark and the cipher layer. -/
structure SSEnv where
  hwm : Nat
  ciph : Cipher

/-- ss_client_init: a fresh client starts in state ss_new. -/
def ss_client_init (c : Conn) : Conn := { c with state := ss_state.ss_new }

/-- ss_client_fini: free each cipher context only if its initialized
flag is set, clearing the flag at the first free. -/
def ss_client_fini (c : SSClientCtx) : SSClientCtx :=
  let c1 :=
    if c.e_ctx_init then
      { c with e_free_count := c.e_free_count + 1, e_ctx_init := false }
    else c
  if c1.d_ctx_init then
    { c1 with d_free_count := c1.d_free_count + 1, d_ctx_init := false }
  else c1

/-- ss_client_writecb: write-completion on the client bufferevent.
`from` is the relay, `to` is the client; data moving relay→client is
decrypted.  `shutdown_on_write` is the result of the framework helper
process_shutdown_on_write_ (external collaborator). -/
def ss_client_writecb (env : SSEnv) (shutdown_on_write : Bool) (conn : Conn) : Conn :=
  let input_size := evbuffer_get_contiguous_space conn.relay.input
  let output_size := conn.client.output.length
  if shutdown_on_write then conn
  else if conn.state = ss_state.ss_connected then
    if output_size < env.hwm then
      let conn1 :=
        if input_size ≠ 0 then
          let p := decrypt_buffer env.ciph conn.relay conn.client
          { conn with relay := p.1, client := p.2 }
        else conn
      if !conn1.relay_evshut_read then
        { conn1 with relay := { conn1.relay with read_enabled := true } }
      else conn1
    else conn
  else redsocks_drop_client conn

/-- ss_client_readcb: read event on the client bufferevent.  `from` is
the client, `to` is the relay; below the high-water mark the chunk is
encrypted and reads stay enabled, at or above it reads are disabled. -/
def ss_client_readcb (env : SSEnv) (conn : Conn) : Conn :=
  let output_size := conn.relay.output.length
  if conn.state = ss_state.ss_connected then
    if output_size < env.hwm then
      let p := encrypt_buffer env.ciph conn.client conn.relay
      let conn1 := { conn with client := p.1, relay := p.2 }
      { conn1 with client := { conn1.client with read_enabled := true } }
    else
      { conn with client := { conn.client with read_enabled := false } }
  else redsocks_drop_client conn

/-- ss_relay_writecb: write-completion on the relay bufferevent.
`from` is the client, `to` is the relay; data moving client→relay is
encrypted. -/
def ss_relay_writecb (env : SSEnv) (shutdown_on_write : Bool) (conn : Conn) : Conn :=
  let input_size := evbuffer_get_contiguous_space conn.client.input
  let output_size := conn.relay.output.length
  if shutdown_on_write then conn
  else if conn.state = ss_state.ss_connected then
    if output_size < env.hwm then
      let conn1 :=
        if input_size ≠ 0 then
          let p := encrypt_buffer env.ciph conn.client conn.relay
          { conn with client := p.1, relay := p.2 }
        else conn
      if !conn1.client_evshut_read then
        { conn1 with client := { conn1.client with read_enabled := true } }
      else conn1
    else conn
  else redsocks_drop_client conn

/-- ss_relay_readcb: read event on the relay bufferevent.  `from` is
the relay, `to` is the client; below the high-water mark a non-empty
chunk is decrypted and reads stay enabled, at or above it reads are
disabled. -/
def ss_relay_readcb (env : SSEnv) (conn : Conn) : Conn :=
  let input_size := evbuffer_get_contiguous_space conn.relay.input
  let output_size := conn.client.output.length
  if conn.state = ss_state.ss_connected then
    if output_size < env.hwm then
      let conn1 :=
        if input_size ≠ 0 then
          let p := decrypt_buffer env.ciph conn.relay conn.client
          { conn with relay := p.1, client := p.2 }
        else conn
      { conn1 with relay := { conn1.relay with read_enabled := true } }
    else
      { conn with relay := { conn.relay with read_enabled := false } }
  else redsocks_drop_client conn

/-- ss_relay_connected: relay-connect completion while in ss_new.
`socket_ok` is red_is_socket_connected_ok, `start_relay_ok` the result
of redsocks_start_relay (which drops the client itself on failure),
`shutdown_on_write` the framework helper outcome seen by the
immediately invoked ss_relay_writecb. -/
def ss_relay_connected (env : SSEnv)
    (socket_ok start_relay_ok shutdown_on_write : Bool) (conn : Conn) : Conn :=
  if !socket_ok then redsocks_drop_client conn
  else
    let c1 := { conn with
                relay_connected := true,
                state := ss_state.ss_connected,
                relay_timeout_set := false }
    if !start_relay_ok then redsocks_drop_client c1
    else
      let c2 := { c1 with
                  client_read_cb := CbKind.client_read,
                  client_write_cb := CbKind.client_write,
                  relay_read_cb := CbKind.relay_read,
                  relay_write_cb := CbKind.relay_write }
      if evbuffer_get_length c2.client.input ≠ 0 then
        ss_relay_writecb env shutdown_on_write c2
      else c2

/-- The ss_header_ipv4 handshake preamble: address type tag, captured
IPv4 destination address (32-bit, stored in network order) and port
(16-bit, network order). -/
structure SSHeaderIPv4 where
  addr : Nat
  port : Nat
  deriving DecidableEq, Repr

/-- ss_addrtype_ipv4: the Shadowsocks IPv4 address-type tag. -/
def ss_addrtype_ipv4 : Byte := 1

/-- The 7-byte wire layout of the handshake preamble:
`[addr_type][addr: 4 bytes][port: 2 bytes]`. -/
def header_bytes (h : SSHeaderIPv4) : List Byte :=
  [ss_addrtype_ipv4,
   h.addr % 256, h.addr / 256 % 256, h.addr / 256 / 256 % 256,
   h.addr / 256 / 256 / 256 % 256,
   h.port % 256, h.port / 256 % 256]

/-- ss_connect_relay: initialize both cipher contexts, encrypt the
handshake header, and hand the ciphertext to red_connect_relay_tfo as
a piggyback payload.  `enc_init_e_ok` / `enc_init_d_ok` are the
enc_ctx_init outcomes, `relay_ok` whether the connect helper returned
a relay bufferevent, and `sz_sent` the sent length it reported for the
piggyback payload.  Returns the updated connection and the C return
value (0 on success, -1 after a drop). -/
def ss_connect_relay (env : SSEnv)
    (enc_init_e_ok enc_init_d_ok relay_ok : Bool) (sz_sent : Nat)
    (dest : SSHeaderIPv4) (conn : Conn) : Conn × Int :=
  if !enc_init_e_ok then (redsocks_drop_client conn, -1)
  else
    let c1 := { conn with sclient := { conn.sclient with e_ctx_init := true } }
    if !enc_init_d_ok then (redsocks_drop_client c1, -1)
    else
      let c2 := { c1 with sclient := { c1.sclient with d_ctx_init := true } }
      match env.ciph.enc (header_bytes dest) with
      | none => (redsocks_drop_client c2, -1)
      | some ct =>
          if !relay_ok then (redsocks_drop_client c2, -1)
          else if sz_sent ≠ 0 ∧ sz_sent ≠ ct.length then
            (redsocks_drop_client c2, -1)
          else (c2, 0)

/-- ss_is_valid_cred: both strings non-null and each at most 255
bytes.  A null C pointer is `none`. -/
def ss_is_valid_cred (method password : Option String) : Bool :=
  match method, password with
  | none, _ => false
  | _, none => false
  | some m, some p =>
      if m.length > 255 then false
      else if p.length > 255 then false
      else true

/-- Modelled from the spec: `enc_init` (encrypt.c, not under src/)
derives the key material and returns the selected method index, or -1
exactly when the method name is not a recognized cipher method.  The
set of recognized methods is the abstract predicate `recognized`. -/
def enc_init (recognized : String → Bool) (password method : String) : Int :=
  if recognized method then 0 else -1

/-- ss_instance_init: subsystem-wide init; fails (returns -1) when the
credential strings are invalid or enc_init rejects the method.  The
method string is `config->login`. -/
def ss_instance_init (recognized : String → Bool)
    (login password : Option String) : Int :=
  let valid_cred := ss_is_valid_cred login password
  if valid_cred = false then -1
  else if enc_init recognized (password.getD "") (login.getD "") = -1 then -1
  else 0

/-! ## Helper lemmas -/

theorem evbuffer_drain_cons (k : List Byte) (rest : SegBuf) (hk : k ≠ []) :
    evbuffer_drain (k :: rest) k.length = rest := by
  obtain ⟨a, k', rfl⟩ := List.exists_cons_of_ne_nil hk
  show evbuffer_drain ((a :: k') :: rest) (k'.length + 1) = rest
  rw [evbuffer_drain]
  simp [evbuffer_drain]

theorem encrypt_mem_some (ciph : Cipher) (data buf : List Byte) (ct : List Byte)
    (hd : data ≠ []) (hreq : ciph.calc_size_e data.length ≠ 0)
    (he : ciph.enc data = some ct) :
    encrypt_mem ciph data buf false = buf ++ ct := by
  unfold encrypt_mem
  simp [List.length_eq_zero, hd, hreq, he]

theorem decrypt_mem_some (ciph : Cipher) (data buf : List Byte) (ct : List Byte)
    (hd : data ≠ []) (hreq : ciph.calc_size_d data.length ≠ 0)
    (he : ciph.dec data = some ct) :
    encrypt_mem ciph data buf true = buf ++ ct := by
  unfold encrypt_mem
  simp [List.length_eq_zero, hd, hreq, he]

theorem encrypt_buffer_cons (ciph : Cipher) (src dst : Stream)
    (k : List Byte) (rest : SegBuf) (ct : List Byte)
    (h : src.input = k :: rest) (hk : k ≠ [])
    (hreq : ciph.calc_size_e k.length ≠ 0) (he : ciph.enc k = some ct) :
    encrypt_buffer ciph src dst =
      ({ src with input := rest }, { dst with output := dst.output ++ ct }) := by
  unfold encrypt_buffer
  rw [h]
  have hlen : evbuffer_get_contiguous_space (k :: rest) = k.length := rfl
  have hpull : evbuffer_pullup (k :: rest) k.length = k := by
    simp [evbuffer_pullup]
  simp only [hlen, hpull, List.length_eq_zero, evbuffer_drain_cons k rest hk,
    encrypt_mem_some ciph k dst.output ct hk hreq he]
  simp [hk]

theorem decrypt_buffer_cons (ciph : Cipher) (src dst : Stream)
    (k : List Byte) (rest : SegBuf) (ct : List Byte)
    (h : src.input = k :: rest) (hk : k ≠ [])
    (hreq : ciph.calc_size_d k.length ≠ 0) (he : ciph.dec k = some ct) :
    decrypt_buffer ciph src dst =
      ({ src with input := rest }, { dst with output := dst.output ++ ct }) := by
  unfold decrypt_buffer
  rw [h]
  have hlen : evbuffer_get_contiguous_space (k :: rest) = k.length := rfl
  have hpull : evbuffer_pullup (k :: rest) k.length = k := by
    simp [evbuffer_pullup]
  simp only [hlen, hpull, List.length_eq_zero, evbuffer_drain_cons k rest hk,
    decrypt_mem_some ciph k dst.output ct hk hreq he]
  simp [hk]

theorem encrypt_buffer_cons_fail (ciph : Cipher) (src dst : Stream)
    (k : List Byte) (rest : SegBuf)
    (h : src.input = k :: rest) (hk : k ≠ [])
    (he : ciph.enc k = none) :
    encrypt_buffer ciph src dst = ({ src with input := rest }, dst) := by
  unfold encrypt_buffer
  rw [h]
  have hlen : evbuffer_get_contiguous_space (k :: rest) = k.length := rfl
  have hpull : evbuffer_pullup (k :: rest) k.length = k := by
    simp [evbuffer_pullup]
  have hmem : encrypt_mem ciph k dst.output false = dst.output := by
    unfold encrypt_mem
    simp [List.length_eq_zero, hk, he]
  simp only [hlen, hpull, hmem, evbuffer_drain_cons k rest hk]
  simp [hk]

theorem decrypt_buffer_cons_fail (ciph : Cipher) (src dst : Stream)
    (k : List Byte) (rest : SegBuf)
    (h : src.input = k :: rest) (hk : k ≠ [])
    (he : ciph.dec k = none) :
    decrypt_buffer ciph src dst = ({ src with input := rest }, dst) := by
  unfold decrypt_buffer
  rw [h]
  have hlen : evbuffer_get_contiguous_space (k :: rest) = k.length := rfl
  have hpull : evbuffer_pullup (k :: rest) k.length = k := by
    simp [evbuffer_pullup]
  have hmem : encrypt_mem ciph k dst.output true = dst.output := by
    unfold encrypt_mem
    simp [List.length_eq_zero, hk, he]
  simp only [hlen, hpull, hmem, evbuffer_drain_cons k rest hk]
  simp [hk]

theorem encrypt_buffer_cons_zero (ciph : Cipher) (src dst : Stream)
    (k : List Byte) (rest : SegBuf)
    (h : src.input = k :: rest) (hk : k ≠ [])
    (hz : ciph.calc_size_e k.length = 0) :
    encrypt_buffer ciph src dst = ({ src with input := rest }, dst) := by
  unfold encrypt_buffer
  rw [h]
  have hlen : evbuffer_get_contiguous_space (k :: rest) = k.length := rfl
  have hpull : evbuffer_pullup (k :: rest) k.length = k := by
    simp [evbuffer_pullup]
  have hmem : encrypt_mem ciph k dst.output false = dst.output := by
    unfold encrypt_mem
    simp [List.length_eq_zero, hk, hz]
  simp only [hlen, hpull, hmem, evbuffer_drain_cons k rest hk]
  simp [hk]

/-! ## Handler unfolding lemmas -/

theorem ss_client_readcb_below (env : SSEnv) (conn : Conn)
    (h1 : conn.state = ss_state.ss_connected)
    (h2 : conn.relay.output.length < env.hwm) :
    ss_client_readcb env conn =
      { conn with
        client := { (encrypt_buffer env.ciph conn.client conn.relay).1 with
                    read_enabled := true },
        relay := (encrypt_buffer env.ciph conn.client conn.relay).2 } := by
  unfold ss_client_readcb
  rw [h1]
  simp [h2]

theorem ss_client_readcb_above (env : SSEnv) (conn : Conn)
    (h1 : conn.state = ss_state.ss_connected)
    (h2 : ¬ conn.relay.output.length < env.hwm) :
    ss_client_readcb env conn =
      { conn with client := { conn.client with read_enabled := false } } := by
  unfold ss_client_readcb
  rw [h1]
  simp [h2]

theorem ss_relay_readcb_below (env : SSEnv) (conn : Conn)
    (h1 : conn.state = ss_state.ss_connected)
    (h2 : conn.client.output.length < env.hwm)
    (h3 : evbuffer_get_contiguous_space conn.relay.input ≠ 0) :
    ss_relay_readcb env conn =
      { conn with
        relay := { (decrypt_buffer env.ciph conn.relay conn.client).1 with
                   read_enabled := true },
        client := (decrypt_buffer env.ciph conn.relay conn.client).2 } := by
  unfold ss_relay_readcb
  rw [h1]
  simp [h2, h3]

theorem ss_relay_readcb_above (env : SSEnv) (conn : Conn)
    (h1 : conn.state = ss_state.ss_connected)
    (h2 : ¬ conn.client.output.length < env.hwm) :
    ss_relay_readcb env conn =
      { conn with relay := { conn.relay with read_enabled := false } } := by
  unfold ss_relay_readcb
  rw [h1]
  simp [h2]

theorem ss_relay_writecb_below (env : SSEnv) (conn : Conn)
    (h1 : conn.state = ss_state.ss_connected)
    (h2 : conn.relay.output.length < env.hwm)
    (h3 : evbuffer_get_contiguous_space conn.client.input ≠ 0)
    (h4 : conn.client_evshut_read = false) :
    ss_relay_writecb env false conn =
      { conn with
        client := { (encrypt_buffer env.ciph conn.client conn.relay).1 with
                    read_enabled := true },
        relay := (encrypt_buffer env.ciph conn.client conn.relay).2 } := by
  unfold ss_relay_writecb
  rw [h1]
  simp [h2, h3, h4]

theorem ss_client_writecb_below (env : SSEnv) (conn : Conn)
    (h1 : conn.state = ss_state.ss_connected)
    (h2 : conn.client.output.length < env.hwm)
    (h3 : evbuffer_get_contiguous_space conn.relay.input ≠ 0)
    (h4 : conn.relay_evshut_read = false) :
    ss_client_writecb env false conn =
      { conn with
        relay := { (decrypt_buffer env.ciph conn.relay conn.client).1 with
                   read_enabled := true },
        client := (decrypt_buffer env.ciph conn.relay conn.client).2 } := by
  unfold ss_client_writecb
  rw [h1]
  simp [h2, h3, h4]

/-! ## Concrete instances used by witnesses and counterexamples -/

/-- A cipher whose transforms always succeed, shifting each byte up
(encrypt) or down (decrypt), with a 16-byte worst-case expansion. -/
def okCipher : Cipher :=
  ⟨fun n => n + 16, fun n => n + 16,
   fun l => some (l.map (· + 1)), fun l => some (l.map (· - 1))⟩

/-- A cipher whose transforms always fail. -/
def failCipher : Cipher :=
  ⟨fun n => n + 16, fun n => n + 16, fun _ => none, fun _ => none⟩

/-- An idle stream. -/
def stream0 : Stream := ⟨[], [], true⟩

/-- A connected connection with idle streams. -/
def connBase : Conn where
  state := ss_state.ss_connected
  client := stream0
  relay := stream0
  client_evshut_read := false
  relay_evshut_read := false
  relay_connected := true
  relay_timeout_set := false
  client_read_cb := CbKind.client_read
  client_write_cb := CbKind.client_write
  relay_read_cb := CbKind.relay_read
  relay_write_cb := CbKind.relay_write
  sclient := ⟨true, true, 0, 0⟩
  dropped := false

/-! ## Claims -/

/-- C5: each invocation of encrypt_buffer / decrypt_buffer processes
exactly the first contiguous run of unread bytes of the source input
queue: an empty run changes neither queue; a non-empty run `k` (when
the transform succeeds and the size bound is non-zero) is transformed
onto the end of the destination output queue, exactly `k.length` bytes
are drained from the source, and the non-contiguous remainder `rest`
is left untouched. -/
theorem c5_first_contiguous_run (ciph : Cipher) (s0 d0 s1 d1 : Stream)
    (k : List Byte) (rest : SegBuf) (cte ctd : List Byte)
    (h0 : evbuffer_get_contiguous_space s0.input = 0)
    (h1 : s1.input = k :: rest) (hk : k ≠ [])
    (hre : ciph.calc_size_e k.length ≠ 0) (he : ciph.enc k = some cte)
    (hrd : ciph.calc_size_d k.length ≠ 0) (hd : ciph.dec k = some ctd) :
    encrypt_buffer ciph s0 d0 = (s0, d0) ∧
    decrypt_buffer ciph s0 d0 = (s0, d0) ∧
    (encrypt_buffer ciph s1 d1).1.input = rest ∧
    (encrypt_buffer ciph s1 d1).1.output = s1.output ∧
    (encrypt_buffer ciph s1 d1).2.output = d1.output ++ cte ∧
    (decrypt_buffer ciph s1 d1).1.input = rest ∧
    (decrypt_buffer ciph s1 d1).1.output = s1.output ∧
    (decrypt_buffer ciph s1 d1).2.output = d1.output ++ ctd := by
  refine ⟨?_, ?_, ?_, ?_, ?_, ?_, ?_, ?_⟩
  · simp [encrypt_buffer, h0]
  · simp [decrypt_buffer, h0]
  · rw [encrypt_buffer_cons ciph s1 d1 k rest cte h1 hk hre he]
  · rw [encrypt_buffer_cons ciph s1 d1 k rest cte h1 hk hre he]
  · rw [encrypt_buffer_cons ciph s1 d1 k rest cte h1 hk hre he]
  · rw [decrypt_buffer_cons ciph s1 d1 k rest ctd h1 hk hrd hd]
  · rw [decrypt_buffer_cons ciph s1 d1 k rest ctd h1 hk hrd hd]
  · rw [decrypt_buffer_cons ciph s1 d1 k rest ctd h1 hk hrd hd]

/-- C5 witness: a concrete two-segment input queue; only the first
segment is processed, the second survives. -/
theorem c5_first_contiguous_run_witness :
    (evbuffer_get_contiguous_space (stream0.input) = 0 ∧
     Stream.input ⟨[[10, 20], [30]], [], true⟩ = [10, 20] :: [[30]] ∧
     ([10, 20] : List Byte) ≠ [] ∧
     okCipher.calc_size_e 2 ≠ 0 ∧ okCipher.enc [10, 20] = some [11, 21] ∧
     okCipher.calc_size_d 2 ≠ 0 ∧ okCipher.dec [10, 20] = some [9, 19]) ∧
    (encrypt_buffer okCipher ⟨[[10, 20], [30]], [], true⟩ ⟨[], [7], true⟩).1.input = [[30]] ∧
    (encrypt_buffer okCipher ⟨[[10, 20], [30]], [], true⟩ ⟨[], [7], true⟩).2.output = [7] ++ [11, 21] :=
  have h := c5_first_contiguous_run okCipher stream0 stream0
    ⟨[[10, 20], [30]], [], true⟩ ⟨[], [7], true⟩ [10, 20] [[30]] [11, 21] [9, 19]
    rfl rfl (by decide) (by decide) rfl (by decide) rfl
  ⟨⟨rfl, rfl, by decide, by decide, rfl, by decide, rfl⟩, h.2.2.1, h.2.2.2.2.1⟩

/-- C6: whenever the cipher transform invoked by encrypt_mem reports
failure, the reserved space is committed with length zero, so the
destination output queue is returned exactly as it was. -/
theorem c6_transform_failure_enqueues_nothing (ciph : Cipher)
    (data buf : List Byte) (decrypt : Bool)
    (hf : (if decrypt then ciph.dec data else ciph.enc data) = none) :
    encrypt_mem ciph data buf decrypt = buf := by
  simp [encrypt_mem, hf]

/-- C6 witness at a failing cipher and a non-empty destination
queue. -/
theorem c6_transform_failure_enqueues_nothing_witness :
    (if false then failCipher.dec [1, 2, 3] else failCipher.enc [1, 2, 3]) = none ∧
    encrypt_mem failCipher [1, 2, 3] [9] false = [9] :=
  ⟨rfl, c6_transform_failure_enqueues_nothing failCipher [1, 2, 3] [9] false rfl⟩

/-- C9: ss_client_fini is idempotent — the second call is a no-op for
both cipher contexts, and even after two calls each context has been
freed at most once beyond its prior count. -/
theorem c9_fini_idempotent (c : SSClientCtx) :
    ss_client_fini (ss_client_fini c) = ss_client_fini c ∧
    (ss_client_fini (ss_client_fini c)).e_free_count ≤ c.e_free_count + 1 ∧
    (ss_client_fini (ss_client_fini c)).d_free_count ≤ c.d_free_count + 1 := by
  obtain ⟨e, d, en, dn⟩ := c
  cases e <;> cases d <;> simp [ss_client_fini]

/-- C10: a non-empty contiguous chunk is always drained in full from
the source queue by encrypt_buffer and decrypt_buffer — also when the
transform fails (`c1`) and when the size computation reserves nothing
(`c2`) — so the consumed bytes are discarded, nothing reaches the
destination, and the read handler leaves the connection running (not
dropped). -/
theorem c10_unconditional_drain (c1 c2 : Cipher) (src dst : Stream)
    (conn : Conn) (hwm : Nat) (k : List Byte) (rest : SegBuf)
    (h : src.input = k :: rest) (hk : k ≠ [])
    (hf : c1.enc k = none)
    (hfd : c1.dec k = none)
    (hz : c2.calc_size_e k.length = 0)
    (hcs : conn.state = ss_state.ss_connected)
    (hci : conn.client.input = k :: rest)
    (hout : conn.relay.output.length < hwm) :
    (encrypt_buffer c1 src dst).1.input = rest ∧
    (encrypt_buffer c1 src dst).2.output = dst.output ∧
    (decrypt_buffer c1 src dst).1.input = rest ∧
    (decrypt_buffer c1 src dst).2.output = dst.output ∧
    (encrypt_buffer c2 src dst).1.input = rest ∧
    (encrypt_buffer c2 src dst).2.output = dst.output ∧
    (ss_client_readcb ⟨hwm, c1⟩ conn).dropped = conn.dropped ∧
    (ss_client_readcb ⟨hwm, c1⟩ conn).client.input = rest := by
  have hfail := encrypt_buffer_cons_fail c1 src dst k rest h hk hf
  have hfaild := decrypt_buffer_cons_fail c1 src dst k rest h hk hfd
  have hzero := encrypt_buffer_cons_zero c2 src dst k rest h hk hz
  have hcb := ss_client_readcb_below ⟨hwm, c1⟩ conn hcs hout
  have hfail2 := encrypt_buffer_cons_fail c1 conn.client conn.relay k rest hci hk hf
  refine ⟨by rw [hfail], by rw [hfail], by rw [hfaild], by rw [hfaild],
          by rw [hzero], by rw [hzero], ?_, ?_⟩
  · rw [hcb]
  · rw [hcb]
    show ((encrypt_buffer c1 conn.client conn.relay).1.input) = rest
    rw [hfail2]

/-- C10 witness: a failing transform and a zero-size bound on a
concrete two-segment queue, inside a live connection. -/
theorem c10_unconditional_drain_witness :
    (Stream.input ⟨[[1, 2], [3]], [], true⟩ = [1, 2] :: [[3]] ∧
     ([1, 2] : List Byte) ≠ [] ∧
     failCipher.enc [1, 2] = none ∧
     failCipher.dec [1, 2] = none ∧
     (Cipher.mk (fun _ => 0) (fun n => n) (fun l => some l) (fun l => some l)).calc_size_e 2 = 0 ∧
     Conn.state { connBase with client := ⟨[[1, 2], [3]], [], true⟩ } = ss_state.ss_connected ∧
     (Conn.client { connBase with client := ⟨[[1, 2], [3]], [], true⟩ }).input = [1, 2] :: [[3]] ∧
     List.length (Conn.relay { connBase with client := ⟨[[1, 2], [3]], [], true⟩ }).output < 64) ∧
    (encrypt_buffer failCipher ⟨[[1, 2], [3]], [], true⟩ ⟨[], [9], true⟩).1.input = [[3]] ∧
    (encrypt_buffer failCipher ⟨[[1, 2], [3]], [], true⟩ ⟨[], [9], true⟩).2.output = [9] ∧
    (decrypt_buffer failCipher ⟨[[1, 2], [3]], [], true⟩ ⟨[], [9], true⟩).1.input = [[3]] ∧
    (decrypt_buffer failCipher ⟨[[1, 2], [3]], [], true⟩ ⟨[], [9], true⟩).2.output = [9] ∧
    (ss_client_readcb ⟨64, failCipher⟩ { connBase with client := ⟨[[1, 2], [3]], [], true⟩ }).dropped = false ∧
    (ss_client_readcb ⟨64, failCipher⟩ { connBase with client := ⟨[[1, 2], [3]], [], true⟩ }).client.input = [[3]] :=
  have h := c10_unconditional_drain failCipher
    (Cipher.mk (fun _ => 0) (fun n => n) (fun l => some l) (fun l => some l))
    ⟨[[1, 2], [3]], [], true⟩ ⟨[], [9], true⟩
    { connBase with client := ⟨[[1, 2], [3]], [], true⟩ } 64 [1, 2] [[3]]
    rfl (by decide) rfl rfl rfl rfl rfl (by decide)
  ⟨⟨rfl, by decide, rfl, rfl, rfl, rfl, rfl, by decide⟩,
   h.1, h.2.1, h.2.2.1, h.2.2.2.1, h.2.2.2.2.2.2.1, h.2.2.2.2.2.2.2⟩

/-- C3 counterexample: in a connected client with buffered client
input, the steady-state read handler runs the encrypt transform, the
transform fails, yet the connection is not torn down — `dropped`
stays false, the state stays CONNECTED, and the pump keeps going
(the chunk is simply discarded).  This refutes the claim that a
mid-stream transform failure routes to the shared drop path. -/
theorem c3_counterexample :
    failCipher.enc [1, 2, 3] = none ∧
    (ss_client_readcb ⟨1024, failCipher⟩ { connBase with client := ⟨[[1, 2, 3]], [], true⟩ }).dropped = false ∧
    (ss_client_readcb ⟨1024, failCipher⟩ { connBase with client := ⟨[[1, 2, 3]], [], true⟩ }).state = ss_state.ss_connected ∧
    (ss_client_readcb ⟨1024, failCipher⟩ { connBase with client := ⟨[[1, 2, 3]], [], true⟩ }).relay.output = [] ∧
    (ss_client_readcb ⟨1024, failCipher⟩ { connBase with client := ⟨[[1, 2, 3]], [], true⟩ }).client.input = [] ∧
    (ss_client_readcb ⟨1024, failCipher⟩ { connBase with client := ⟨[[1, 2, 3]], [], true⟩ }).client.read_enabled = true :=
  ⟨rfl, rfl, rfl, rfl, rfl, rfl⟩

/-- C3 amended: whenever a steady-state encrypt or decrypt transform
fails mid-stream — an encrypt failure in ss_client_readcb or
ss_relay_writecb, a decrypt failure in ss_relay_readcb or
ss_client_writecb — the failure is not fatal: the handler enqueues
nothing on the destination, unconditionally drains the consumed chunk
(those bytes are lost, not retried), and the connection continues in
CONNECTED without entering the drop path. -/
theorem c3_amended_transform_failure_not_fatal (env : SSEnv) (conn : Conn)
    (kc kr : List Byte) (restc restr : SegBuf)
    (h1 : conn.state = ss_state.ss_connected)
    (h2 : conn.relay.output.length < env.hwm)
    (h3 : conn.client.output.length < env.hwm)
    (hc : conn.client.input = kc :: restc) (hkc : kc ≠ [])
    (hr : conn.relay.input = kr :: restr) (hkr : kr ≠ [])
    (hfe : env.ciph.enc kc = none)
    (hfd : env.ciph.dec kr = none)
    (he1 : conn.client_evshut_read = false)
    (he2 : conn.relay_evshut_read = false) :
    (ss_client_readcb env conn).dropped = conn.dropped ∧
    (ss_client_readcb env conn).state = ss_state.ss_connected ∧
    (ss_client_readcb env conn).relay.output = conn.relay.output ∧
    (ss_client_readcb env conn).client.input = restc ∧
    (ss_relay_writecb env false conn).dropped = conn.dropped ∧
    (ss_relay_writecb env false conn).state = ss_state.ss_connected ∧
    (ss_relay_writecb env false conn).relay.output = conn.relay.output ∧
    (ss_relay_writecb env false conn).client.input = restc ∧
    (ss_relay_readcb env conn).dropped = conn.dropped ∧
    (ss_relay_readcb env conn).state = ss_state.ss_connected ∧
    (ss_relay_readcb env conn).client.output = conn.client.output ∧
    (ss_relay_readcb env conn).relay.input = restr ∧
    (ss_client_writecb env false conn).dropped = conn.dropped ∧
    (ss_client_writecb env false conn).state = ss_state.ss_connected ∧
    (ss_client_writecb env false conn).client.output = conn.client.output ∧
    (ss_client_writecb env false conn).relay.input = restr := by
  have hce : evbuffer_get_contiguous_space conn.client.input ≠ 0 := by
    rw [hc]
    simpa [evbuffer_get_contiguous_space, List.length_eq_zero] using hkc
  have hre : evbuffer_get_contiguous_space conn.relay.input ≠ 0 := by
    rw [hr]
    simpa [evbuffer_get_contiguous_space, List.length_eq_zero] using hkr
  have hebf := encrypt_buffer_cons_fail env.ciph conn.client conn.relay kc restc hc hkc hfe
  have hdbf := decrypt_buffer_cons_fail env.ciph conn.relay conn.client kr restr hr hkr hfd
  have e1 := ss_client_readcb_below env conn h1 h2
  have e2 := ss_relay_writecb_below env conn h1 h2 hce he1
  have e3 := ss_relay_readcb_below env conn h1 h3 hre
  have e4 := ss_client_writecb_below env conn h1 h3 hre he2
  rw [e1, e2, e3, e4, hebf, hdbf]
  exact ⟨rfl, h1, rfl, rfl, rfl, h1, rfl, rfl,
         rfl, h1, rfl, rfl, rfl, h1, rfl, rfl⟩

/-- A connected connection with a pending chunk on each input queue
and empty output queues. -/
def connFail : Conn :=
  { connBase with
    client := ⟨[[4, 5], [6]], [], true⟩
    relay := ⟨[[7], [8]], [], true⟩ }

/-- C3 amended witness: a failing cipher in both directions on
concrete two-segment queues; all four handlers keep the connection
running. -/
theorem c3_amended_transform_failure_not_fatal_witness :
    (connFail.state = ss_state.ss_connected ∧
     connFail.relay.output.length < 32 ∧
     connFail.client.output.length < 32 ∧
     connFail.client.input = [4, 5] :: [[6]] ∧
     ([4, 5] : List Byte) ≠ [] ∧
     connFail.relay.input = [7] :: [[8]] ∧
     ([7] : List Byte) ≠ [] ∧
     failCipher.enc [4, 5] = none ∧
     failCipher.dec [7] = none ∧
     connFail.client_evshut_read = false ∧
     connFail.relay_evshut_read = false) ∧
    (ss_client_readcb ⟨32, failCipher⟩ connFail).dropped = false ∧
    (ss_client_readcb ⟨32, failCipher⟩ connFail).relay.output = [] ∧
    (ss_client_readcb ⟨32, failCipher⟩ connFail).client.input = [[6]] ∧
    (ss_relay_writecb ⟨32, failCipher⟩ false connFail).dropped = false ∧
    (ss_relay_writecb ⟨32, failCipher⟩ false connFail).client.input = [[6]] ∧
    (ss_relay_readcb ⟨32, failCipher⟩ connFail).dropped = false ∧
    (ss_relay_readcb ⟨32, failCipher⟩ connFail).client.output = [] ∧
    (ss_relay_readcb ⟨32, failCipher⟩ connFail).relay.input = [[8]] ∧
    (ss_client_writecb ⟨32, failCipher⟩ false connFail).dropped = false ∧
    (ss_client_writecb ⟨32, failCipher⟩ false connFail).relay.input = [[8]] := by
  have h := c3_amended_transform_failure_not_fatal ⟨32, failCipher⟩ connFail
    [4, 5] [7] [[6]] [[8]]
    rfl (by decide) (by decide) rfl (by decide) rfl (by decide) rfl rfl rfl rfl
  obtain ⟨a1, a2, a3, a4, a5, a6, a7, a8, a9, a10, a11, a12, a13, a14, a15, a16⟩ := h
  exact ⟨⟨rfl, by decide, by decide, rfl, by decide, rfl, by decide, rfl, rfl, rfl, rfl⟩,
         a1, a3, a4, a5, a8, a9, a11, a12, a13, a16⟩

theorem encrypt_buffer_fst_read_enabled (ciph : Cipher) (src dst : Stream) :
    (encrypt_buffer ciph src dst).1.read_enabled = src.read_enabled := by
  unfold encrypt_buffer
  by_cases h : evbuffer_get_contiguous_space src.input = 0 <;> simp [h]

theorem decrypt_buffer_fst_read_enabled (ciph : Cipher) (src dst : Stream) :
    (decrypt_buffer ciph src dst).1.read_enabled = src.read_enabled := by
  unfold decrypt_buffer
  by_cases h : evbuffer_get_contiguous_space src.input = 0 <;> simp [h]

/-- In ss_client_writecb the peer half-close flag is consulted: with
relay_evshut_read set, the relay's read-enable state is never
touched. -/
theorem ss_client_writecb_evshut (env : SSEnv) (conn : Conn)
    (h1 : conn.state = ss_state.ss_connected)
    (h4 : conn.relay_evshut_read = true) :
    (ss_client_writecb env false conn).relay.read_enabled =
      conn.relay.read_enabled := by
  unfold ss_client_writecb
  rw [h1]
  simp [h4, decrypt_buffer_fst_read_enabled]
  split
  · split <;> simp [h4, decrypt_buffer_fst_read_enabled]
  · rfl

/-- In ss_relay_writecb the peer half-close flag is consulted: with
client_evshut_read set, the client's read-enable state is never
touched. -/
theorem ss_relay_writecb_evshut (env : SSEnv) (conn : Conn)
    (h1 : conn.state = ss_state.ss_connected)
    (h4 : conn.client_evshut_read = true) :
    (ss_relay_writecb env false conn).client.read_enabled =
      conn.client.read_enabled := by
  unfold ss_relay_writecb
  rw [h1]
  simp [h4, encrypt_buffer_fst_read_enabled]
  split
  · split <;> simp [h4, encrypt_buffer_fst_read_enabled]
  · rfl

/-- ss_client_writecb below the mark with the half-close flag clear
re-enables relay reads, whether or not any input was pending. -/
theorem ss_client_writecb_reenable (env : SSEnv) (conn : Conn)
    (h1 : conn.state = ss_state.ss_connected)
    (h2 : conn.client.output.length < env.hwm)
    (h4 : conn.relay_evshut_read = false) :
    (ss_client_writecb env false conn).relay.read_enabled = true := by
  unfold ss_client_writecb
  rw [h1]
  simp [h2, h4]
  split <;> simp [h4]

/-- ss_relay_writecb below the mark with the half-close flag clear
re-enables client reads, whether or not any input was pending. -/
theorem ss_relay_writecb_reenable (env : SSEnv) (conn : Conn)
    (h1 : conn.state = ss_state.ss_connected)
    (h2 : conn.relay.output.length < env.hwm)
    (h4 : conn.client_evshut_read = false) :
    (ss_relay_writecb env false conn).client.read_enabled = true := by
  unfold ss_relay_writecb
  rw [h1]
  simp [h2, h4]
  split <;> simp [h4]

/-- C8 counterexample: in a connected client whose client stream
already signalled a read-side shutdown (client_evshut_read) and whose
reads are disabled, the steady-state read handler ss_client_readcb
re-enables reads without consulting the flag; likewise
ss_relay_readcb for the relay stream.  This refutes the claim that
every bufferevent_enable(EV_READ) decision first consults the
stream's half-close flag. -/
theorem c8_counterexample :
    Conn.client_evshut_read
      { connBase with client_evshut_read := true, client := ⟨[], [], false⟩ } = true ∧
    (Conn.client { connBase with client_evshut_read := true, client := ⟨[], [], false⟩ }).read_enabled = false ∧
    (ss_client_readcb ⟨64, okCipher⟩
      { connBase with client_evshut_read := true, client := ⟨[], [], false⟩ }).client.read_enabled = true ∧
    Conn.relay_evshut_read
      { connBase with relay_evshut_read := true, relay := ⟨[], [], false⟩ } = true ∧
    (Conn.relay { connBase with relay_evshut_read := true, relay := ⟨[], [], false⟩ }).read_enabled = false ∧
    (ss_relay_readcb ⟨64, okCipher⟩
      { connBase with relay_evshut_read := true, relay := ⟨[], [], false⟩ }).relay.read_enabled = true :=
  ⟨rfl, rfl, rfl, rfl, rfl, rfl⟩

/-- C8 amended: only the two write-completion handlers consult the
peer's half-close flag before re-enabling reads — with the flag set
they leave the source's read-enable state untouched — while the two
read handlers re-enable the source below the mark without consulting
the flag. -/
theorem c8_amended_only_writecbs_consult_evshut (env : SSEnv) (conn : Conn)
    (h1 : conn.state = ss_state.ss_connected)
    (he1 : conn.relay_evshut_read = true)
    (he2 : conn.client_evshut_read = true)
    (hb1 : conn.relay.output.length < env.hwm)
    (hb2 : conn.client.output.length < env.hwm) :
    (ss_client_writecb env false conn).relay.read_enabled = conn.relay.read_enabled ∧
    (ss_relay_writecb env false conn).client.read_enabled = conn.client.read_enabled ∧
    (ss_client_readcb env conn).client.read_enabled = true ∧
    (ss_relay_readcb env conn).relay.read_enabled = true := by
  refine ⟨ss_client_writecb_evshut env conn h1 he1,
          ss_relay_writecb_evshut env conn h1 he2, ?_, ?_⟩
  · rw [ss_client_readcb_below env conn h1 hb1]
  · unfold ss_relay_readcb
    rw [h1]
    simp [hb2]

/-- A connected connection whose both read sides have signalled
shutdown and whose reads are disabled. -/
def connShut : Conn :=
  { connBase with
    client_evshut_read := true
    relay_evshut_read := true
    client := ⟨[], [], false⟩
    relay := ⟨[], [], false⟩ }

theorem c8_amended_only_writecbs_consult_evshut_witness :
    (connShut.state = ss_state.ss_connected ∧
     connShut.relay_evshut_read = true ∧
     connShut.client_evshut_read = true ∧
     connShut.relay.output.length < 64 ∧
     connShut.client.output.length < 64) ∧
    (ss_client_writecb ⟨64, okCipher⟩ false connShut).relay.read_enabled = false ∧
    (ss_relay_writecb ⟨64, okCipher⟩ false connShut).client.read_enabled = false ∧
    (ss_client_readcb ⟨64, okCipher⟩ connShut).client.read_enabled = true :=
  have h := c8_amended_only_writecbs_consult_evshut ⟨64, okCipher⟩ connShut
    rfl rfl rfl (by decide) (by decide)
  ⟨⟨rfl, rfl, rfl, by decide, by decide⟩, h.1, h.2.1, h.2.2.1⟩

/-- C2: backpressure policy in state CONNECTED.  On a connection `ca`
whose destination output queues are at or above the high-water mark,
a read event disables reads on the source and enqueues no new output,
in both directions.  On a connection `cb` below the mark, a read
event transforms and forwards the available chunk and leaves source
reads enabled.  On a connection `cw` below the mark (peer half-close
flags clear), a write-completion event on the destination re-enables
reads on the source, in both directions. -/
theorem c2_backpressure (env : SSEnv) (ca cb cw : Conn)
    (kc kr cte ctd : List Byte) (restc restr : SegBuf)
    (ha1 : ca.state = ss_state.ss_connected)
    (ha2 : ¬ ca.relay.output.length < env.hwm)
    (ha3 : ¬ ca.client.output.length < env.hwm)
    (hb1 : cb.state = ss_state.ss_connected)
    (hb2 : cb.relay.output.length < env.hwm)
    (hb3 : cb.client.output.length < env.hwm)
    (hbc : cb.client.input = kc :: restc) (hkc : kc ≠ [])
    (hec : env.ciph.enc kc = some cte) (hrc : env.ciph.calc_size_e kc.length ≠ 0)
    (hbr : cb.relay.input = kr :: restr) (hkr : kr ≠ [])
    (hdr : env.ciph.dec kr = some ctd) (hrd : env.ciph.calc_size_d kr.length ≠ 0)
    (hw1 : cw.state = ss_state.ss_connected)
    (hw2 : cw.client.output.length < env.hwm)
    (hw3 : cw.relay.output.length < env.hwm)
    (hw4 : cw.relay_evshut_read = false)
    (hw5 : cw.client_evshut_read = false) :
    ((ss_client_readcb env ca).client.read_enabled = false ∧
     (ss_client_readcb env ca).relay.output = ca.relay.output ∧
     (ss_client_readcb env ca).client.input = ca.client.input ∧
     (ss_relay_readcb env ca).relay.read_enabled = false ∧
     (ss_relay_readcb env ca).client.output = ca.client.output ∧
     (ss_relay_readcb env ca).relay.input = ca.relay.input) ∧
    ((ss_client_readcb env cb).relay.output = cb.relay.output ++ cte ∧
     (ss_client_readcb env cb).client.input = restc ∧
     (ss_client_readcb env cb).client.read_enabled = true ∧
     (ss_relay_readcb env cb).client.output = cb.client.output ++ ctd ∧
     (ss_relay_readcb env cb).relay.input = restr ∧
     (ss_relay_readcb env cb).relay.read_enabled = true) ∧
    ((ss_client_writecb env false cw).relay.read_enabled = true ∧
     (ss_relay_writecb env false cw).client.read_enabled = true) := by
  have hac := ss_client_readcb_above env ca ha1 ha2
  have har := ss_relay_readcb_above env ca ha1 ha3
  have hbcb := ss_client_readcb_below env cb hb1 hb2
  have hbenc := encrypt_buffer_cons env.ciph cb.client cb.relay kc restc cte hbc hkc hrc hec
  have hkr0 : evbuffer_get_contiguous_space cb.relay.input ≠ 0 := by
    rw [hbr]
    simpa [evbuffer_get_contiguous_space, List.length_eq_zero] using hkr
  have hbrb := ss_relay_readcb_below env cb hb1 hb3 hkr0
  have hbdec := decrypt_buffer_cons env.ciph cb.relay cb.client kr restr ctd hbr hkr hrd hdr
  refine ⟨⟨?_, ?_, ?_, ?_, ?_, ?_⟩, ⟨?_, ?_, ?_, ?_, ?_, ?_⟩, ?_, ?_⟩
  · rw [hac]
  · rw [hac]
  · rw [hac]
  · rw [har]
  · rw [har]
  · rw [har]
  · rw [hbcb]
    show (encrypt_buffer env.ciph cb.client cb.relay).2.output = cb.relay.output ++ cte
    rw [hbenc]
  · rw [hbcb]
    show (encrypt_buffer env.ciph cb.client cb.relay).1.input = restc
    rw [hbenc]
  · rw [hbcb]
  · rw [hbrb]
    show (decrypt_buffer env.ciph cb.relay cb.client).2.output = cb.client.output ++ ctd
    rw [hbdec]
  · rw [hbrb]
    show (decrypt_buffer env.ciph cb.relay cb.client).1.input = restr
    rw [hbdec]
  · rw [hbrb]
  · exact ss_client_writecb_reenable env cw hw1 hw2 hw4
  · exact ss_relay_writecb_reenable env cw hw1 hw3 hw5

/-- A connected connection with both output queues at the high-water
mark (2 bytes) and pending input on both sides. -/
def connAbove : Conn :=
  { connBase with
    client := ⟨[[1]], [0, 0], true⟩
    relay := ⟨[[2]], [0, 0], true⟩ }

/-- A connected connection below the mark with one pending chunk on
each side. -/
def connBelow : Conn :=
  { connBase with
    client := ⟨[[10], [40]], [], true⟩
    relay := ⟨[[20], [50]], [], true⟩ }

/-- A connected idle connection with reads disabled on both sides. -/
def connDrain : Conn :=
  { connBase with
    client := ⟨[], [], false⟩
    relay := ⟨[], [], false⟩ }

/-- C2 witness with high-water mark 2. -/
theorem c2_backpressure_witness :
    (connAbove.state = ss_state.ss_connected ∧
     ¬ connAbove.relay.output.length < 2 ∧
     ¬ connAbove.client.output.length < 2 ∧
     connBelow.state = ss_state.ss_connected ∧
     connBelow.relay.output.length < 2 ∧
     connBelow.client.output.length < 2 ∧
     connBelow.client.input = [10] :: [[40]] ∧
     connBelow.relay.input = [20] :: [[50]] ∧
     okCipher.enc [10] = some [11] ∧ okCipher.dec [20] = some [19] ∧
     connDrain.state = ss_state.ss_connected ∧
     connDrain.relay_evshut_read = false ∧ connDrain.client_evshut_read = false) ∧
    ((ss_client_readcb ⟨2, okCipher⟩ connAbove).client.read_enabled = false ∧
     (ss_client_readcb ⟨2, okCipher⟩ connAbove).relay.output = connAbove.relay.output ∧
     (ss_relay_readcb ⟨2, okCipher⟩ connAbove).relay.read_enabled = false) ∧
    ((ss_client_readcb ⟨2, okCipher⟩ connBelow).relay.output = [11] ∧
     (ss_client_readcb ⟨2, okCipher⟩ connBelow).client.input = [[40]] ∧
     (ss_relay_readcb ⟨2, okCipher⟩ connBelow).client.output = [19] ∧
     (ss_relay_readcb ⟨2, okCipher⟩ connBelow).relay.input = [[50]]) ∧
    ((ss_client_writecb ⟨2, okCipher⟩ false connDrain).relay.read_enabled = true ∧
     (ss_relay_writecb ⟨2, okCipher⟩ false connDrain).client.read_enabled = true) :=
  have h := c2_backpressure ⟨2, okCipher⟩ connAbove connBelow connDrain
    [10] [20] [11] [19] [[40]] [[50]]
    rfl (by decide) (by decide)
    rfl (by decide) (by decide)
    rfl (by decide) rfl (by decide)
    rfl (by decide) rfl (by decide)
    rfl (by decide) (by decide) rfl rfl
  ⟨⟨rfl, by decide, by decide, rfl, by decide, by decide, rfl, rfl, rfl, rfl,
    rfl, rfl, rfl⟩,
   ⟨h.1.1, h.1.2.1, h.1.2.2.2.1⟩,
   ⟨h.2.1.1, h.2.1.2.1, h.2.1.2.2.2.1, h.2.1.2.2.2.2.1⟩,
   ⟨h.2.2.1, h.2.2.2⟩⟩

/-- Full effect of ss_relay_writecb on a connected client below the
mark with a pending chunk that encrypts successfully. -/
theorem ss_relay_writecb_fields (env : SSEnv) (conn : Conn)
    (k : List Byte) (rest : SegBuf) (ct : List Byte)
    (h1 : conn.state = ss_state.ss_connected)
    (h2 : conn.relay.output.length < env.hwm)
    (h3 : conn.client.input = k :: rest) (hk : k ≠ [])
    (he : env.ciph.enc k = some ct) (hreq : env.ciph.calc_size_e k.length ≠ 0)
    (h4 : conn.client_evshut_read = false) :
    ss_relay_writecb env false conn =
      { conn with
        client := { conn.client with input := rest, read_enabled := true },
        relay := { conn.relay with output := conn.relay.output ++ ct } } := by
  have hbuf := encrypt_buffer_cons env.ciph conn.client conn.relay k rest ct h3 hk hreq he
  have h3' : evbuffer_get_contiguous_space conn.client.input ≠ 0 := by
    rw [h3]
    simpa [evbuffer_get_contiguous_space, List.length_eq_zero] using hk
  rw [ss_relay_writecb_below env conn h1 h2 h3' h4, hbuf]

/-- C1: on a successful relay connect from state NEW,
ss_relay_connected transitions to CONNECTED, marks the relay as
connected, clears the connect-phase timeouts on the relay stream,
installs the four steady-state read/write handlers on both streams,
and — the client input being non-empty — invokes ss_relay_writecb so
that the buffered client chunk is encrypted onto the relay output
queue before control returns to the event loop.  On a connection `c0`
whose client input is empty the same transition and handler
installation happen but nothing is forwarded. -/
theorem c1_relay_connected_transition (env : SSEnv) (conn c0 : Conn)
    (k : List Byte) (rest : SegBuf) (ct : List Byte)
    (hstate : conn.state = ss_state.ss_new)
    (hin : conn.client.input = k :: rest) (hk : k ≠ [])
    (hhwm : conn.relay.output.length < env.hwm)
    (henc : env.ciph.enc k = some ct)
    (hreq : env.ciph.calc_size_e k.length ≠ 0)
    (hshut : conn.client_evshut_read = false)
    (h0 : c0.client.input = []) :
    (ss_relay_connected env true true false conn).state = ss_state.ss_connected ∧
    (ss_relay_connected env true true false conn).relay_connected = true ∧
    (ss_relay_connected env true true false conn).relay_timeout_set = false ∧
    (ss_relay_connected env true true false conn).client_read_cb = CbKind.client_read ∧
    (ss_relay_connected env true true false conn).client_write_cb = CbKind.client_write ∧
    (ss_relay_connected env true true false conn).relay_read_cb = CbKind.relay_read ∧
    (ss_relay_connected env true true false conn).relay_write_cb = CbKind.relay_write ∧
    (ss_relay_connected env true true false conn).relay.output = conn.relay.output ++ ct ∧
    (ss_relay_connected env true true false conn).client.input = rest ∧
    (ss_relay_connected env true true false conn).dropped = conn.dropped ∧
    (ss_relay_connected env true true false c0).state = ss_state.ss_connected ∧
    (ss_relay_connected env true true false c0).relay_connected = true ∧
    (ss_relay_connected env true true false c0).relay_timeout_set = false ∧
    (ss_relay_connected env true true false c0).client_read_cb = CbKind.client_read ∧
    (ss_relay_connected env true true false c0).relay.output = c0.relay.output ∧
    (ss_relay_connected env true true false c0).dropped = c0.dropped := by
  have hkpos : 0 < k.length := List.length_pos.mpr hk
  have hlen : evbuffer_get_length conn.client.input ≠ 0 := by
    rw [hin]
    simp only [evbuffer_get_length, List.map_cons, List.sum_cons]
    omega
  have hc2 : ss_relay_connected env true true false conn =
      ss_relay_writecb env false
        { conn with
          relay_connected := true
          state := ss_state.ss_connected
          relay_timeout_set := false
          client_read_cb := CbKind.client_read
          client_write_cb := CbKind.client_write
          relay_read_cb := CbKind.relay_read
          relay_write_cb := CbKind.relay_write } := by
    unfold ss_relay_connected
    simp [hlen]
  have hc0 : ss_relay_connected env true true false c0 =
      { c0 with
        relay_connected := true
        state := ss_state.ss_connected
        relay_timeout_set := false
        client_read_cb := CbKind.client_read
        client_write_cb := CbKind.client_write
        relay_read_cb := CbKind.relay_read
        relay_write_cb := CbKind.relay_write } := by
    unfold ss_relay_connected
    simp [h0, evbuffer_get_length]
  rw [hc2, hc0]
  rw [ss_relay_writecb_fields env
      { conn with
        relay_connected := true
        state := ss_state.ss_connected
        relay_timeout_set := false
        client_read_cb := CbKind.client_read
        client_write_cb := CbKind.client_write
        relay_read_cb := CbKind.relay_read
        relay_write_cb := CbKind.relay_write } k rest ct rfl hhwm hin hk henc hreq hshut]
  exact ⟨rfl, rfl, rfl, rfl, rfl, rfl, rfl, rfl, rfl, rfl,
         rfl, rfl, rfl, rfl, rfl, rfl⟩

/-- A fresh client in state NEW with 3 buffered client bytes,
connect-phase timeouts armed and callbacks not yet steady-state. -/
def connNew : Conn :=
  { connBase with
    state := ss_state.ss_new
    relay_connected := false
    relay_timeout_set := true
    client_read_cb := CbKind.initial_cb
    client_write_cb := CbKind.initial_cb
    relay_read_cb := CbKind.initial_cb
    relay_write_cb := CbKind.initial_cb
    client := ⟨[[10, 20, 30]], [], true⟩ }

/-- C1 witness. -/
theorem c1_relay_connected_transition_witness :
    (connNew.state = ss_state.ss_new ∧
     connNew.client.input = [10, 20, 30] :: [] ∧
     connNew.relay.output.length < 64 ∧
     okCipher.enc [10, 20, 30] = some [11, 21, 31] ∧
     connNew.client_evshut_read = false) ∧
    (ss_relay_connected ⟨64, okCipher⟩ true true false connNew).state = ss_state.ss_connected ∧
    (ss_relay_connected ⟨64, okCipher⟩ true true false connNew).relay_connected = true ∧
    (ss_relay_connected ⟨64, okCipher⟩ true true false connNew).relay_timeout_set = false ∧
    (ss_relay_connected ⟨64, okCipher⟩ true true false connNew).client_read_cb = CbKind.client_read ∧
    (ss_relay_connected ⟨64, okCipher⟩ true true false connNew).relay.output = [11, 21, 31] ∧
    (ss_relay_connected ⟨64, okCipher⟩ true true false connNew).client.input = [] ∧
    (ss_relay_connected ⟨64, okCipher⟩ true true false connNew).dropped = false :=
  have h := c1_relay_connected_transition ⟨64, okCipher⟩ connNew
    { connNew with client := ⟨[], [], true⟩ } [10, 20, 30] [] [11, 21, 31]
    rfl rfl (by decide) (by decide) rfl (by decide) rfl rfl
  ⟨⟨rfl, rfl, by decide, rfl, rfl⟩,
   h.1, h.2.1, h.2.2.1, h.2.2.2.1, h.2.2.2.2.2.2.2.1, h.2.2.2.2.2.2.2.2.1,
   h.2.2.2.2.2.2.2.2.2.1⟩

/-- C4: the piggyback send-length check of ss_connect_relay.  With
both cipher contexts initialized and the header encrypted to `ct`: a
reported sent length of zero lets the connection proceed (return 0,
no drop, both context flags set); a nonzero reported length `sz`
different from `ct.length` drops the client and returns -1; and a
connect helper that returns no relay stream likewise drops the
client and returns -1. -/
theorem c4_piggyback_length_check (env : SSEnv) (dest : SSHeaderIPv4)
    (conn : Conn) (ct : List Byte) (sz : Nat)
    (henc : env.ciph.enc (header_bytes dest) = some ct)
    (hsz0 : sz ≠ 0) (hszlen : sz ≠ ct.length) :
    ((ss_connect_relay env true true true 0 dest conn).2 = 0 ∧
     (ss_connect_relay env true true true 0 dest conn).1.dropped = conn.dropped ∧
     (ss_connect_relay env true true true 0 dest conn).1.sclient.e_ctx_init = true ∧
     (ss_connect_relay env true true true 0 dest conn).1.sclient.d_ctx_init = true) ∧
    ((ss_connect_relay env true true true sz dest conn).2 = -1 ∧
     (ss_connect_relay env true true true sz dest conn).1.dropped = true) ∧
    ((ss_connect_relay env true true false sz dest conn).2 = -1 ∧
     (ss_connect_relay env true true false sz dest conn).1.dropped = true) := by
  unfold ss_connect_relay
  simp [henc, hsz0, hszlen, redsocks_drop_client]

/-- C4 witness: the all-zero destination encrypts to a 7-byte header
ciphertext; sent length 5 is a fatal mismatch. -/
theorem c4_piggyback_length_check_witness :
    (okCipher.enc (header_bytes ⟨0, 0⟩) = some [2, 1, 1, 1, 1, 1, 1] ∧
     (5 : Nat) ≠ 0 ∧ (5 : Nat) ≠ 7) ∧
    (ss_connect_relay ⟨64, okCipher⟩ true true true 0 ⟨0, 0⟩ connBase).2 = 0 ∧
    (ss_connect_relay ⟨64, okCipher⟩ true true true 0 ⟨0, 0⟩ connBase).1.dropped = false ∧
    (ss_connect_relay ⟨64, okCipher⟩ true true true 5 ⟨0, 0⟩ connBase).2 = -1 ∧
    (ss_connect_relay ⟨64, okCipher⟩ true true true 5 ⟨0, 0⟩ connBase).1.dropped = true ∧
    (ss_connect_relay ⟨64, okCipher⟩ true true false 5 ⟨0, 0⟩ connBase).2 = -1 ∧
    (ss_connect_relay ⟨64, okCipher⟩ true true false 5 ⟨0, 0⟩ connBase).1.dropped = true :=
  have h := c4_piggyback_length_check ⟨64, okCipher⟩ ⟨0, 0⟩ connBase
    [2, 1, 1, 1, 1, 1, 1] 5 rfl (by decide) (by decide)
  ⟨⟨rfl, by decide, by decide⟩,
   h.1.1, h.1.2.1, h.2.1.1, h.2.1.2, h.2.2.1, h.2.2.2⟩

/-- C7: the init-time credential check.  ss_instance_init succeeds
exactly when the method (login) and password are both non-null, each
at most 255 bytes, and the method is recognized (the latter enforced
through enc_init); and it fails whenever ss_is_valid_cred fails. -/
theorem c7_credential_check (recognized : String → Bool)
    (login password : Option String) :
    (ss_instance_init recognized login password = 0 ↔
      ∃ m p, login = some m ∧ password = some p ∧
        m.length ≤ 255 ∧ p.length ≤ 255 ∧ recognized m = true) ∧
    (ss_is_valid_cred login password = false →
      ss_instance_init recognized login password = -1) := by
  constructor
  · cases login with
    | none => simp [ss_instance_init, ss_is_valid_cred]
    | some m =>
      cases password with
      | none => simp [ss_instance_init, ss_is_valid_cred]
      | some p =>
        by_cases hm : m.length > 255
        · simp only [ss_instance_init, ss_is_valid_cred, if_pos hm]
          simp only [Option.some.injEq]
          constructor
          · intro h
            simp at h
          · rintro ⟨m', p', rfl, rfl, hml, _, _⟩
            omega
        · by_cases hp : p.length > 255
          · simp only [ss_instance_init, ss_is_valid_cred, if_neg hm, if_pos hp]
            constructor
            · intro h
              simp at h
            · rintro ⟨m', p', hm', hp', _, hpl, _⟩
              cases hm'
              cases hp'
              omega
          · by_cases hr : recognized m = true
            · simp [ss_instance_init, ss_is_valid_cred, enc_init, hm, hp, hr, Option.getD]
              omega
            · simp [ss_instance_init, ss_is_valid_cred, enc_init, hm, hp, hr, Option.getD]
  · intro h
    simp [ss_instance_init, h]

/-- C7 witness: a recognized short method succeeds; a null method
fails init. -/
theorem c7_credential_check_witness :
    ss_instance_init (fun s => s == "rc4-md5") (some "rc4-md5") (some "pw") = 0 ∧
    ss_is_valid_cred none (some "pw") = false ∧
    ss_instance_init (fun s => s == "rc4-md5") none (some "pw") = -1 :=
  ⟨(c7_credential_check (fun s => s == "rc4-md5") (some "rc4-md5") (some "pw")).1.mpr
     ⟨"rc4-md5", "pw", rfl, rfl, by decide, by decide, by decide⟩,
   rfl,
   (c7_credential_check (fun s => s == "rc4-md5") none (some "pw")).2 rfl⟩

end Shadowsocks
